import Mathlib

/-!
Verification development for the AI news summarizer scripts
(src/app.py, src/sum_open.py, src/sum_groq.py).

The embedding models, from the source:
  * get_news (src/app.py lines 30-56): the provider fetch, including its
    try/except boundary, which catches only requests.RequestException;
  * the message-extraction expressions of summarize_news
    (src/app.py lines 142-145 and src/sum_open.py lines 191-195);
  * the deadline-checked polling loop of NewsSummarizer.summarize_news
    (src/app.py lines 125-152), driven by an abstract environment giving
    the elapsed-time reading at each deadline check and the run status
    returned by each retrieve call;
  * the deadline-free polling loop of src/sum_open.py lines 182-187;
  * the thread/assistant precondition guards of add_news_to_thread and
    summarize_news (src/app.py lines 95-96 and 115-116);
  * the main pipeline of src/app.py lines 174-196, recording the sequence
    of remote calls performed and what is displayed.

Machine floats (time.time) are modelled as natural-number elapsed-time
readings; the only operations the code performs on them are comparison
against the timeout and the implicit growth produced by time.sleep(5).
-/

deriving instance DecidableEq for Except

namespace AINews

/-- One raw record of the provider JSON array, as consumed by get_news
(src/app.py lines 45-52): each field is read with dict.get, so a field is
either present with a string value or absent (missing key). `sourceName`
stands for article.get("source", \x7b\x7d).get("name", ...). -/
structure RawArticle where
  title : Option String
  author : Option String
  sourceName : Option String
  description : Option String
  url : Option String
  publishedAt : Option String
deriving DecidableEq

/-- One element of the "articles" JSON array: either a JSON object (a dict
in Python) or some other JSON value, on which article.get raises
AttributeError. -/
inductive ArticleItem
  | nonDict
  | dict (a : RawArticle)
deriving DecidableEq

/-- The possible outcomes of requests.get + raise_for_status +
response.json() as seen by the body of get_news (src/app.py lines 40-52):
  * netErr: requests.get raised a requests.RequestException;
  * httpErr: non-2xx status, raise_for_status raised HTTPError
    (a RequestException);
  * badJson: the body is not JSON, response.json() raised the requests
    JSONDecodeError (a RequestException in requests since 2.27);
  * topNonObject: the body is valid JSON whose top level is not an object,
    so news_data.get raises AttributeError;
  * body: top-level JSON object, with the "articles" key absent (none) or
    bound to a list of items.
An "articles" key bound to a non-list JSON value is not modelled; no claim
depends on it. -/
inductive FetchResponse
  | netErr
  | httpErr
  | badJson
  | topNonObject
  | body (articles : Option (List ArticleItem))
deriving DecidableEq

/-- The Python exceptions the modelled code can raise past a boundary. -/
inductive PyExn
  | attributeError
  | valueError (msg : String)
deriving DecidableEq

/-- The string built for one article by the list comprehension of get_news
(src/app.py lines 45-52), with the dict.get defaults of that code. -/
def formatArticle (a : RawArticle) : String :=
  "Title: " ++ a.title.getD "N/A" ++ "\n" ++
  "Author: " ++ a.author.getD "Unknown" ++ "\n" ++
  "Source: " ++ a.sourceName.getD "N/A" ++ "\n" ++
  "Description: " ++ a.description.getD "" ++ "\n" ++
  "URL: " ++ a.url.getD ""

/-- Formatting one element of the articles array: a non-dict element makes
article.get raise AttributeError, which the except clause of get_news does
not catch. -/
def formatItem : ArticleItem → Except PyExn String
  | .nonDict => .error .attributeError
  | .dict a => .ok (formatArticle a)

/-- The list comprehension of get_news, evaluated left to right; the first
non-dict element aborts it with AttributeError. -/
def formatItems : List ArticleItem → Except PyExn (List String)
  | [] => .ok []
  | x :: xs =>
    match formatItem x with
    | .error e => .error e
    | .ok s =>
      match formatItems xs with
      | .error e => .error e
      | .ok rest => .ok (s :: rest)

/-- get_news (src/app.py lines 30-56). The except clause catches only
requests.RequestException (netErr, httpErr, badJson) and returns [].
AttributeError from a wrongly shaped JSON body propagates out. The slice
[:page_size] is applied before formatting, as in line 51. -/
def get_news (resp : FetchResponse) (pageSize : Nat) : Except PyExn (List String) :=
  match resp with
  | .netErr => .ok []
  | .httpErr => .ok []
  | .badJson => .ok []
  | .topNonObject => .error .attributeError
  | .body articles => formatItems ((articles.getD []).take pageSize)

/-- The sequence of article records that get_news formats into its output,
in output order (the dict elements of the sliced articles array). -/
def returnedArticles (resp : FetchResponse) (pageSize : Nat) : List RawArticle :=
  match resp with
  | .body articles =>
    ((articles.getD []).take pageSize).filterMap
      (fun it => match it with | .dict a => some a | .nonDict => none)
  | _ => []

/-- The query parameters built by get_news (src/app.py lines 32-38): the
publishedAt ordering is requested from the provider via sortBy; no local
sort is performed. -/
def newsQueryParams (topic apiKey : String) (pageSize : Nat) : List (String × String) :=
  [("q", topic), ("apiKey", apiKey), ("pageSize", toString pageSize),
   ("sortBy", "publishedAt"), ("language", "en")]

/-- The publishedAt sort key of an article; absent publishedAt compares as
the empty string. -/
def pubKey (a : RawArticle) : String :=
  a.publishedAt.getD ""

/-- Lexicographic comparison of character sequences by code point, the
raw-string comparison Python applies to strings. -/
def chronoLe : List Char → List Char → Bool
  | [], _ => true
  | _ :: _, [] => false
  | a :: as, b :: bs =>
    if a.toNat < b.toNat then true
    else if b.toNat < a.toNat then false
    else chronoLe as bs

/-- Raw-string comparison of publishedAt values; ISO-8601 strings of one
format compare chronologically under it. -/
def strLe (a b : String) : Bool := chronoLe a.toList b.toList

/-- Stated from the claim being checked, not from the source: the output
sequence is non-increasing by publishedAt, with raw-string comparison of
the values. -/
def sortedByPublishedDescB : List RawArticle → Bool
  | [] => true
  | [_] => true
  | a :: b :: rest => strLe (pubKey b) (pubKey a) && sortedByPublishedDescB (b :: rest)

/-- One message of messages.list(...).data; `text` stands for
msg.content[0].text.value. The OpenAI endpoint returns the list newest
first (default order "desc"), and the list is kept in that order here. -/
structure Message where
  role : String
  text : String
deriving DecidableEq

/-- The extraction expression of src/app.py lines 142-145: the first
assistant message of reversed(messages.data), defaulting to
"No summary generated.". Since data is newest first, reversed(data) is
oldest first. -/
def extractSummaryApp (data : List Message) : String :=
  (((data.reverse.find? (fun m => m.role == "assistant")).map Message.text)).getD
    "No summary generated."

/-- The extraction loop of src/sum_open.py lines 191-195: the first
assistant message of messages.data in its given (newest-first) order,
falling back to "No summary generated." after the loop. -/
def extractSummaryOpen (data : List Message) : String :=
  (((data.find? (fun m => m.role == "assistant")).map Message.text)).getD
    "No summary generated."

/-- The distinguishable exits of the polling loop of summarize_news
(src/app.py lines 127-152), each naming the code path taken:
  * timedOut: lines 128-130, logs and displays "News summarization timed
    out" and returns None;
  * completed: lines 137-146, returns the extracted message text;
  * runFailed: lines 148-150, logs and displays "Run failed with status:
    ..." and returns None. -/
inductive SumOutcome
  | timedOut
  | completed (text : String)
  | runFailed (status : String)
deriving DecidableEq

/-- The Python value the method returns on each exit path: None for both
timedOut and runFailed, the text for completed. -/
def returnValue : SumOutcome → Option String
  | .timedOut => none
  | .completed t => some t
  | .runFailed _ => none

/-- Environment driving one invocation of the polling loop:
  * elapsed i: the value of time.time() - start_time at the deadline check
    of iteration i (line 128);
  * status i: run.status after the retrieve of iteration i (line 132);
  * messages: messages.list(...).data, newest first (line 138). -/
structure PollEnv where
  elapsed : Nat → Nat
  status : Nat → String
  messages : List Message

/-- A status string on which the loop of src/app.py exits. -/
def TerminalStr (s : String) : Prop :=
  s = "completed" ∨ s = "failed" ∨ s = "cancelled"

instance (s : String) : Decidable (TerminalStr s) := by
  unfold TerminalStr; infer_instance

/-- The polling loop of src/app.py lines 127-152, fuel-indexed; `i` is the
iteration index. Returns the exit path together with the number of
run-status retrievals performed, or none when the fuel is exhausted with
the loop still running (in which case exactly `fuel` retrievals happened,
one per consumed iteration). The deadline check precedes the retrieve, so
a timeout exit at iteration i has performed i retrievals. -/
def pollLoop (env : PollEnv) (t : Nat) : Nat → Nat → Option (SumOutcome × Nat)
  | 0, _ => none
  | fuel + 1, i =>
    if t < env.elapsed i then some (.timedOut, i)
    else if env.status i = "completed" then
      some (.completed (extractSummaryApp env.messages), i + 1)
    else if env.status i = "failed" ∨ env.status i = "cancelled" then
      some (.runFailed (env.status i), i + 1)
    else pollLoop env t fuel (i + 1)

/-- The polling loop of src/sum_open.py lines 182-187: while run.status is
not in ["completed", "failed"], sleep and retrieve again. There is no
deadline check, and "cancelled" is not an exit status. Fuel-indexed:
returns the exit status, or none when fuel is exhausted. -/
def sumOpenLoop (status : Nat → String) : Nat → Nat → Option String
  | 0, _ => none
  | fuel + 1, i =>
    if status i = "completed" ∨ status i = "failed" then some (status i)
    else sumOpenLoop status fuel (i + 1)

/-- No amount of fuel makes the sum_open loop exit on this status
sequence: the loop never terminates. -/
def sumOpenDiverges (status : Nat → String) : Prop :=
  ∀ fuel, sumOpenLoop status fuel 0 = none

/-- The status sequence of a remote run that reports "cancelled" forever. -/
def foreverCancelled : Nat → String := fun _ => "cancelled"

/-- The thread/assistant fields of a NewsSummarizer instance. -/
structure SummarizerState where
  thread : Option String
  assistant : Option String

/-- The remote calls the modelled code can perform, with the payload where
a claim depends on it. -/
inductive ApiCall
  | fetchNews (topic : String)
  | createAssistant (topic : String)
  | createThread
  | createMessage (content : String)
  | createRun
  | retrieveRun
  | listMessages
deriving DecidableEq

/-- The message content built by add_news_to_thread (src/app.py
lines 99-104). -/
def newsContent (articles : List String) (topic : String) : String :=
  "Provide a comprehensive summary for news articles about \x27" ++ topic ++
    "\x27.\n\nNews Articles:\n" ++ String.intercalate "\n\n" articles ++
    "\n\nImportant: Synthesize these articles into a concise, coherent summary."

/-- add_news_to_thread (src/app.py lines 94-112). Raises ValueError before
any remote call when no thread exists. Otherwise one messages.create call
is made; its try/except catches every exception from that call and logs
it, so the method returns None whether or not the remote call succeeded —
`messageOk` records whether it did, and the returned pair is the same for
both values. Result: (raised exception or normal return, remote calls
made). -/
def add_news_to_thread_m (st : SummarizerState) (_messageOk : Bool)
    (articles : List String) (topic : String) : Except PyExn Unit × List ApiCall :=
  match st.thread with
  | none => (.error (.valueError "Thread not initialized"), [])
  | some _ => (.ok (), [.createMessage (newsContent articles topic)])

/-- summarize_news (src/app.py lines 114-156). Raises ValueError before
any remote call unless both thread and assistant exist. Otherwise starts a
run and enters the polling loop; the value component is
.ok none when the fuel ran out with the loop still polling, and
.ok (some r) with r the Python return value (None or the summary text)
otherwise. The call list records the run creation, each retrieve, and the
messages.list call of the completed path. -/
def summarize_news_m (st : SummarizerState) (env : PollEnv) (t fuel : Nat) :
    Except PyExn (Option (Option String)) × List ApiCall :=
  match st.thread, st.assistant with
  | some _, some _ =>
    match pollLoop env t fuel 0 with
    | none => (.ok none, .createRun :: List.replicate fuel .retrieveRun)
    | some (o, k) =>
      (.ok (some (returnValue o)),
        .createRun :: List.replicate k .retrieveRun ++
          (match o with | .completed _ => [.listMessages] | _ => []))
  | _, _ => (.error (.valueError "Thread or Assistant not initialized"), [])

/-- Environment driving one run of main (src/app.py lines 174-196): the
provider response, whether assistant/thread/message creation succeed, the
polling environment, and the fuel bounding the observed polling. -/
structure MainEnv where
  fetch : FetchResponse
  assistantOk : Bool
  threadOk : Bool
  messageOk : Bool
  poll : PollEnv
  fuel : Nat

/-- What one run of main displays (src/app.py lines 174-196):
  * nothing: the submit/topic guard failed, or assistant/thread creation
    failed (the if of line 184 has no else branch);
  * warningNoArticles: line 179;
  * raised: an uncaught exception escaped main;
  * summary: lines 189-194 — the summary AND the article expander; this is
    the only branch that displays the fetched articles;
  * errorOnly: line 196, "Failed to generate news summary." with no
    articles;
  * unresolved: the polling fuel ran out. -/
inductive DisplayResult
  | nothing
  | warningNoArticles
  | raised (e : PyExn)
  | summary (text : String) (articles : List String)
  | errorOnly
  | unresolved
deriving DecidableEq

/-- Result of one run of main: the remote calls performed, in order, and
what was displayed. -/
structure MainResult where
  calls : List ApiCall
  display : DisplayResult
deriving DecidableEq

/-- What the tail of main displays given the value summarize_news produced
(src/app.py lines 188-196): the summary and the article expander when the
returned value is truthy (a non-empty string), only the error of line 196
otherwise. The article expander sits inside the `if summary:` branch, so
articles are displayed only together with a summary. -/
def mainDisplay : Except PyExn (Option (Option String)) → List String → DisplayResult
  | .error e, _ => .raised e
  | .ok none, _ => .unresolved
  | .ok (some none), _ => .errorOnly
  | .ok (some (some s)), arts => if s = "" then .errorOnly else .summary s arts

/-- main after a successful submit with a truthy topic (src/app.py
lines 176-196), excluding the fetchNews call itself from the call list. -/
def afterFetch (topic : String) (env : MainEnv) : MainResult :=
  match get_news env.fetch 15 with
  | .error e => ⟨[], .raised e⟩
  | .ok arts =>
    if arts = [] then ⟨[], .warningNoArticles⟩
    else if env.assistantOk = false then ⟨[.createAssistant topic], .nothing⟩
    else if env.threadOk = false then
      ⟨[.createAssistant topic, .createThread], .nothing⟩
    else
      let st : SummarizerState := ⟨some "thread-id", some "assistant-id"⟩
      let attach := add_news_to_thread_m st env.messageOk arts topic
      let sres := summarize_news_m st env.poll 90 env.fuel
      ⟨.createAssistant topic :: .createThread :: (attach.2 ++ sres.2),
       mainDisplay sres.1 arts⟩

/-- main (src/app.py lines 158-196). The guard of line 174 is
`if submit_button and topic:`; the truthiness of a Python string is its
being non-empty, so a whitespace-only topic passes the guard. When the
guard fails, nothing runs and no remote call is made. -/
def runMain (submit : Bool) (topic : String) (env : MainEnv) : MainResult :=
  if submit = true ∧ topic ≠ "" then
    let r := afterFetch topic env
    ⟨.fetchNews topic :: r.calls, r.display⟩
  else ⟨[], .nothing⟩

/-! Concrete environments used by the checks below. -/

/-- A run whose deadline is already exceeded at the first check. -/
def envTimeout : PollEnv := ⟨fun _ => 100, fun _ => "running", []⟩

/-- A run whose first status report is "failed", well before the
deadline. -/
def envFailed : PollEnv := ⟨fun _ => 0, fun _ => "failed", []⟩

/-- A run that stays "running" forever while the clock advances exactly
five seconds per iteration. -/
def envLinear : PollEnv := ⟨fun i => 5 * i, fun _ => "running", []⟩

/-- A run that completes at the first poll with no assistant message. -/
def msgsNoAssistant : List Message := [⟨"user", "question"⟩]

def envCompleted : PollEnv := ⟨fun _ => 0, fun _ => "completed", msgsNoAssistant⟩

/-- A record with no title and no url at all. -/
def noTitleNoUrl : RawArticle := ⟨none, none, none, none, none, none⟩

/-- Two records whose provider order is oldest first, the opposite of
publishedAt-descending. -/
def artOld : RawArticle :=
  ⟨some "Old story", none, none, none, some "http://example.com/old",
   some "2020-01-01T00:00:00Z"⟩

def artNew : RawArticle :=
  ⟨some "New story", none, none, none, some "http://example.com/new",
   some "2024-01-01T00:00:00Z"⟩

def respOutOfOrder : FetchResponse := .body (some [.dict artOld, .dict artNew])

/-- A message list in the newest-first order of the endpoint, holding two
assistant messages. -/
def msgsNewestFirst : List Message :=
  [⟨"assistant", "NEWEST"⟩, ⟨"user", "question"⟩, ⟨"assistant", "OLDEST"⟩]

/-- A main run where the fetch succeeds but message submission fails and
the remote run then completes. -/
def envMsgFail : MainEnv :=
  ⟨.body (some [.dict artNew]), true, true, false,
   ⟨fun _ => 0, fun _ => "completed", [⟨"assistant", "summary text"⟩]⟩, 3⟩

/-- A main run where the fetch succeeds and the remote run fails. -/
def envRunFail : MainEnv :=
  ⟨.body (some [.dict artNew]), true, true, true,
   ⟨fun _ => 0, fun _ => "failed", []⟩, 3⟩

/-- An arbitrary main environment for the topic-guard checks. -/
def envIdle : MainEnv :=
  ⟨.netErr, true, true, true, ⟨fun _ => 0, fun _ => "failed", []⟩, 1⟩

/-! Helper lemmas. -/

/-- The list comprehension over an array of dict records formats every
record, in order. -/
theorem formatItems_dicts (as : List RawArticle) :
    formatItems (as.map ArticleItem.dict) = .ok (as.map formatArticle) := by
  induction as with
  | nil => rfl
  | cons a rest ih => simp [formatItems, formatItem, ih]

/-- A result produced by the app.py loop within some fuel is produced by
any larger fuel: the exit is stable. -/
theorem pollLoop_mono (env : PollEnv) (t : Nat) :
    ∀ fuel fuel' i r, fuel ≤ fuel' → pollLoop env t fuel i = some r →
      pollLoop env t fuel' i = some r := by
  intro fuel
  induction fuel with
  | zero => intro fuel' i r _ h; simp [pollLoop] at h
  | succ f ih =>
    intro fuel' i r hle h
    obtain ⟨f', rfl⟩ : ∃ f', fuel' = f' + 1 := ⟨fuel' - 1, by omega⟩
    rw [pollLoop] at h ⊢
    by_cases h1 : t < env.elapsed i
    · rw [if_pos h1] at h ⊢; exact h
    · rw [if_neg h1] at h ⊢
      by_cases h2 : env.status i = "completed"
      · rw [if_pos h2] at h ⊢; exact h
      · rw [if_neg h2] at h ⊢
        by_cases h3 : env.status i = "failed" ∨ env.status i = "cancelled"
        · rw [if_pos h3] at h ⊢; exact h
        · rw [if_neg h3] at h ⊢; exact ih f' (i + 1) r (by omega) h

/-- The app.py loop exits within the fuel as soon as some reachable
iteration either sees the deadline exceeded or a terminal status. -/
theorem pollLoop_isSome (env : PollEnv) (t : Nat) :
    ∀ fuel i, (∃ d, d < fuel ∧ (t < env.elapsed (i + d) ∨ TerminalStr (env.status (i + d)))) →
      (pollLoop env t fuel i).isSome := by
  intro fuel
  induction fuel with
  | zero => intro i h; obtain ⟨d, hd, _⟩ := h; omega
  | succ f ih =>
    intro i h
    rw [pollLoop]
    by_cases h1 : t < env.elapsed i
    · rw [if_pos h1]; rfl
    · rw [if_neg h1]
      by_cases h2 : env.status i = "completed"
      · rw [if_pos h2]; rfl
      · rw [if_neg h2]
        by_cases h3 : env.status i = "failed" ∨ env.status i = "cancelled"
        · rw [if_pos h3]; rfl
        · rw [if_neg h3]
          apply ih
          obtain ⟨d, hd, hcond⟩ := h
          match d, hd with
          | 0, _ =>
            exfalso
            simp only [Nat.add_zero] at hcond
            rcases hcond with hc | hc
            · exact h1 hc
            · rcases hc with hc | hc | hc
              · exact h2 hc
              · exact h3 (Or.inl hc)
              · exact h3 (Or.inr hc)
          | d' + 1, hd =>
            exact ⟨d', by omega, by
              have : i + (d' + 1) = i + 1 + d' := by omega
              rw [this] at hcond
              exact hcond⟩

/-- When every check before index i + j passes the deadline test and sees
a non-terminal status, and the check at i + j sees the deadline exceeded,
the app.py loop exits there with the timeout path, having performed
exactly i + j retrievals from iteration 0. -/
theorem pollLoop_timeout (env : PollEnv) (t : Nat) :
    ∀ j fuel i, j < fuel →
      (∀ d, d < j → env.elapsed (i + d) ≤ t ∧ ¬ TerminalStr (env.status (i + d))) →
      t < env.elapsed (i + j) →
      pollLoop env t fuel i = some (.timedOut, i + j) := by
  intro j
  induction j with
  | zero =>
    intro fuel i hf _ hj
    obtain ⟨f, rfl⟩ : ∃ f, fuel = f + 1 := ⟨fuel - 1, by omega⟩
    rw [pollLoop]
    simp only [Nat.add_zero] at hj ⊢
    rw [if_pos hj]
  | succ d ihd =>
    intro fuel i hf hall hj
    obtain ⟨f, rfl⟩ : ∃ f, fuel = f + 1 := ⟨fuel - 1, by omega⟩
    have h0 := hall 0 (by omega)
    simp only [Nat.add_zero] at h0
    rw [pollLoop]
    rw [if_neg (by omega)]
    rw [if_neg (fun hc => h0.2 (Or.inl hc))]
    rw [if_neg (fun hc => h0.2 (Or.inr hc))]
    have harith : i + (d + 1) = i + 1 + d := by omega
    rw [harith] at hj
    have := ihd f (i + 1) (by omega)
      (fun d' hd' => by
        have h' := hall (d' + 1) (by omega)
        have : i + (d' + 1) = i + 1 + d' := by omega
        rw [this] at h'
        exact h') hj
    rw [this]
    congr 1
    rw [Prod.mk.injEq]
    exact ⟨rfl, by omega⟩

/-- Each loop iteration sleeps five seconds, so the elapsed reading grows
by at least five per iteration; hence it is at least 5 i at check i. -/
theorem elapsed_lb (env : PollEnv)
    (hstep : ∀ i, env.elapsed i + 5 ≤ env.elapsed (i + 1)) :
    ∀ i, 5 * i ≤ env.elapsed i := by
  intro i
  induction i with
  | zero => exact Nat.zero_le _
  | succ n ih => have := hstep n; omega

/-- The sum_open loop never exits on the forever-cancelled status
sequence, from any iteration and with any fuel. -/
theorem sumOpenLoop_cancelled : ∀ fuel i, sumOpenLoop foreverCancelled fuel i = none := by
  intro fuel
  induction fuel with
  | zero => intro i; rfl
  | succ f ih =>
    intro i
    rw [sumOpenLoop]
    rw [if_neg (by simp [foreverCancelled])]
    exact ih (i + 1)

/-! The claims. -/

/-- C1, counterexample: as return values, the timeout outcome is not
distinct from the remote-run-failure outcome. With the deadline already
exceeded at the first check (envTimeout) the loop exits on the timeout
path and the method returns None; with a first status report of "failed"
(envFailed) the loop exits on the run-failure path and the method also
returns None. The claimed distinction between TimedOut and RemoteRunError
does not exist in the value summarize_news returns to its caller. -/
theorem C1_counterexample :
    (pollLoop envTimeout 90 5 0).map (fun r => returnValue r.1) = some none ∧
    (pollLoop envFailed 90 5 0).map (fun r => returnValue r.1) = some none ∧
    (pollLoop envTimeout 90 5 0).map Prod.fst = some SumOutcome.timedOut ∧
    (pollLoop envFailed 90 5 0).map Prod.fst = some (SumOutcome.runFailed "failed") := by
  decide

/-- C1 (amended): in the loop of src/app.py, when the elapsed time
exceeds the deadline at some check j and no earlier retrieve reported a
terminal status, the loop exits on the timeout code path - distinct as a
code path (with its own displayed message) from the completed and
run-failed paths, though the returned value is None exactly as for a
failed run - and polling stops: exactly k ≤ j retrievals are made, each
at an iteration whose deadline check still passed, and none at or after
the check that detects the deadline. The loop of src/sum_open.py has no
deadline at all. -/
theorem C1_amended (env : PollEnv) (t j : Nat) (hj : t < env.elapsed j)
    (hbefore : ∀ i, i < j → ¬ TerminalStr (env.status i)) :
    ∃ k, k ≤ j ∧ (∀ i, i < k → env.elapsed i ≤ t) ∧
      ∀ fuel, j < fuel → pollLoop env t fuel 0 = some (.timedOut, k) := by
  have hex : ∃ i, t < env.elapsed i := ⟨j, hj⟩
  have hkj : Nat.find hex ≤ j := Nat.find_min' hex hj
  refine ⟨Nat.find hex, hkj, ?_, ?_⟩
  · intro i hi
    have := Nat.find_min hex hi
    omega
  · intro fuel hfuel
    have h := pollLoop_timeout env t (Nat.find hex) fuel 0 (by omega)
      (fun d hd => by
        constructor
        · have h1 := Nat.find_min hex hd
          simp only [Nat.zero_add]
          omega
        · simp only [Nat.zero_add]
          exact hbefore d (by omega))
      (by simp only [Nat.zero_add]; exact Nat.find_spec hex)
    simpa using h

/-- C1 witness: the amended statement applied to envTimeout with deadline
90 and j = 0. -/
theorem C1_witness :
    ∃ k, k ≤ 0 ∧ (∀ i, i < k → envTimeout.elapsed i ≤ 90) ∧
      ∀ fuel, 0 < fuel → pollLoop envTimeout 90 fuel 0 = some (.timedOut, k) :=
  C1_amended envTimeout 90 0 (by decide) (fun i hi => absurd hi (Nat.not_lt_zero i))

/-- C2, counterexample: the polling loop of src/sum_open.py does not
terminate on the status sequence that reports "cancelled" forever: its
exit condition tests only "completed" and "failed" and there is no
deadline check, so no amount of fuel makes it exit. -/
theorem C2_counterexample : sumOpenDiverges foreverCancelled :=
  fun fuel => sumOpenLoop_cancelled fuel 0

/-- C2 (amended): the deadline-checked loop of src/app.py terminates on
every status sequence, given that the five-second sleep of each iteration
advances the elapsed reading by at least five: a single exit (outcome and
retrieve count) is produced by every sufficient fuel, so exactly one
terminal outcome is reached and no polling iteration follows it. The loop
of src/sum_open.py lacks this guarantee (see the counterexample). -/
theorem C2_amended (env : PollEnv) (t : Nat)
    (hstep : ∀ i, env.elapsed i + 5 ≤ env.elapsed (i + 1)) :
    ∃ r : SumOutcome × Nat, ∀ fuel, t + 2 ≤ fuel → pollLoop env t fuel 0 = some r := by
  have hsome : (pollLoop env t (t + 2) 0).isSome := by
    apply pollLoop_isSome
    refine ⟨t + 1, by omega, Or.inl ?_⟩
    have := elapsed_lb env hstep (t + 1)
    simp only [Nat.zero_add]
    omega
  obtain ⟨r, hr⟩ := Option.isSome_iff_exists.mp hsome
  exact ⟨r, fun fuel hf => pollLoop_mono env t (t + 2) fuel 0 r hf hr⟩

/-- C2 witness: the amended statement applied to a run that stays
"running" while the clock advances five seconds per iteration. -/
theorem C2_witness :
    ∃ r : SumOutcome × Nat, ∀ fuel, 92 ≤ fuel → pollLoop envLinear 90 fuel 0 = some r :=
  C2_amended envLinear 90 (fun i => by show 5 * i + 5 ≤ 5 * (i + 1); omega)

/-- C3, counterexample: a malformed response body that is valid JSON with
a non-object top level is not degraded to the empty list: news_data.get
raises AttributeError, which the except clause (requests.RequestException
only) does not catch, so the exception escapes the fetch boundary. -/
theorem C3_counterexample :
    get_news .topNonObject 15 = .error .attributeError ∧
    get_news .topNonObject 15 ≠ .ok [] := by decide

/-- C3 (amended): on network error, non-2xx status, or a non-JSON body
the fetch returns the empty list without raising (these all surface as
requests.RequestException, which is caught); but a wrongly shaped JSON
body whose top level is not an object raises AttributeError past the
fetch boundary. -/
theorem C3_amended (n : Nat) :
    get_news .netErr n = .ok [] ∧ get_news .httpErr n = .ok [] ∧
    get_news .badJson n = .ok [] ∧
    get_news .topNonObject n = .error .attributeError :=
  ⟨rfl, rfl, rfl, rfl⟩

/-- C4, counterexample: a record whose title and url are both missing is
not dropped: get_news formats it with the placeholder defaults and it
appears in the output list. -/
theorem C4_counterexample :
    get_news (.body (some [.dict noTitleNoUrl])) 15 =
      .ok ["Title: N/A\nAuthor: Unknown\nSource: N/A\nDescription: \nURL: "] ∧
    get_news (.body (some [.dict noTitleNoUrl])) 15 ≠ .ok [] := by decide

/-- C4 (amended): no record is dropped for a missing or empty title or
url; every dict record of the sliced articles array is formatted with
placeholder defaults, so the output length is always the minimum of the
page size and the number of records. -/
theorem C4_amended (as : List RawArticle) (ps : Nat) :
    get_news (.body (some (as.map ArticleItem.dict))) ps =
      .ok ((as.take ps).map formatArticle) ∧
    ((as.take ps).map formatArticle).length = min ps as.length := by
  constructor
  · show formatItems ((as.map ArticleItem.dict).take ps) = _
    rw [← List.map_take, formatItems_dicts]
  · simp [List.length_take]

/-- C5, counterexample: the output of the fetch is not sorted
non-increasing by publishedAt: no local sort exists, so a response whose
records arrive oldest first is returned oldest first. -/
theorem C5_counterexample :
    sortedByPublishedDescB (returnedArticles respOutOfOrder 15) = false := by decide

/-- C5 (amended): there is no concatenation of several providers and no
local sort; the single fetch asks the provider for publishedAt-descending
order via the sortBy query parameter and returns the records in response
order, formatted one to one. -/
theorem C5_amended (topic apiKey : String) (as : List RawArticle) (ps : Nat) :
    ("sortBy", "publishedAt") ∈ newsQueryParams topic apiKey ps ∧
    returnedArticles (.body (some (as.map ArticleItem.dict))) ps = as.take ps ∧
    get_news (.body (some (as.map ArticleItem.dict))) ps =
      .ok ((as.take ps).map formatArticle) := by
  refine ⟨by simp [newsQueryParams], ?_, ?_⟩
  · show ((as.map ArticleItem.dict).take ps).filterMap _ = as.take ps
    rw [← List.map_take, List.filterMap_map]
    exact List.filterMap_some _
  · show formatItems ((as.map ArticleItem.dict).take ps) = _
    rw [← List.map_take, formatItems_dicts]

/-- C6, counterexample: with message submission failing (messageOk is
false), main still starts a run and polls it: createRun and retrieveRun
appear among the performed calls. The failed submission is caught and
logged inside add_news_to_thread and nothing of it reaches main. -/
theorem C6_counterexample :
    envMsgFail.messageOk = false ∧
    ApiCall.createRun ∈ (runMain true "ai" envMsgFail).calls ∧
    ApiCall.retrieveRun ∈ (runMain true "ai" envMsgFail).calls := by decide

/-- C6 (amended): a failed submission is swallowed inside
add_news_to_thread, there is no Failed(SubmissionError) terminal state,
and the run is started and polled unconditionally: for every pipeline
that reaches thread creation with a non-empty fetch, both the submission
attempt and the run creation appear among the calls even when the
submission fails. -/
theorem C6_amended (topic : String) (env : MainEnv) (arts : List String)
    (ht : topic ≠ "") (_hm : env.messageOk = false)
    (hf : get_news env.fetch 15 = .ok arts) (hne : arts ≠ [])
    (ha : env.assistantOk = true) (hth : env.threadOk = true) :
    ApiCall.createMessage (newsContent arts topic) ∈ (runMain true topic env).calls ∧
    ApiCall.createRun ∈ (runMain true topic env).calls := by
  have hrm : runMain true topic env =
      ⟨.fetchNews topic :: (afterFetch topic env).calls,
       (afterFetch topic env).display⟩ := by
    unfold runMain
    rw [if_pos ⟨rfl, ht⟩]
  have hcalls : (afterFetch topic env).calls =
      .createAssistant topic :: .createThread ::
        ([.createMessage (newsContent arts topic)] ++
          (summarize_news_m ⟨some "thread-id", some "assistant-id"⟩
            env.poll 90 env.fuel).2) := by
    unfold afterFetch
    rw [hf]
    simp [hne, ha, hth, add_news_to_thread_m]
  have hrun : ApiCall.createRun ∈
      (summarize_news_m ⟨some "thread-id", some "assistant-id"⟩
        env.poll 90 env.fuel).2 := by
    unfold summarize_news_m
    rcases h : pollLoop env.poll 90 env.fuel 0 with _ | ⟨o, k⟩ <;> simp [h]
  constructor
  · rw [hrm]
    show ApiCall.createMessage _ ∈ ApiCall.fetchNews topic :: (afterFetch topic env).calls
    rw [hcalls]
    simp
  · rw [hrm]
    show ApiCall.createRun ∈ ApiCall.fetchNews topic :: (afterFetch topic env).calls
    rw [hcalls]
    simp [hrun]

/-- C6 witness: the amended statement applied to envMsgFail. -/
theorem C6_witness :
    ApiCall.createMessage (newsContent [formatArticle artNew] "ai") ∈
      (runMain true "ai" envMsgFail).calls ∧
    ApiCall.createRun ∈ (runMain true "ai" envMsgFail).calls :=
  C6_amended "ai" envMsgFail [formatArticle artNew] (by decide) rfl (by decide)
    (by decide) rfl rfl

/-- C7, counterexample: with the newest-first message list holding two
assistant messages, the extraction of src/sum_open.py returns the most
recent text but the extraction of src/app.py iterates over the reversed
list and returns the oldest one, not the most recent. -/
theorem C7_counterexample :
    extractSummaryOpen msgsNewestFirst = "NEWEST" ∧
    extractSummaryApp msgsNewestFirst = "OLDEST" ∧
    extractSummaryApp msgsNewestFirst ≠ "NEWEST" := by decide

/-- C7 (amended): src/sum_open.py returns the text of the most recent
assistant message while src/app.py returns the oldest one (its extraction
equals the sum_open extraction applied to the reversed list); in both,
when no assistant message exists the extraction yields the fallback
"No summary generated.", and on a completed status the loop still exits
on the completed path carrying that extraction - the fallback is a
successful completion, not a failure. -/
theorem C7_amended :
    (∀ data : List Message, extractSummaryApp data = extractSummaryOpen data.reverse) ∧
    (∀ data : List Message, data.find? (fun m => m.role == "assistant") = none →
      extractSummaryApp data = "No summary generated." ∧
      extractSummaryOpen data = "No summary generated.") ∧
    (∀ env : PollEnv, env.elapsed 0 ≤ 90 → env.status 0 = "completed" →
      ∀ fuel, 0 < fuel →
        pollLoop env 90 fuel 0 =
          some (.completed (extractSummaryApp env.messages), 1)) := by
  refine ⟨fun data => rfl, fun data h => ?_, fun env h1 h2 fuel hf => ?_⟩
  · have h' : data.reverse.find? (fun m => m.role == "assistant") = none := by
      rw [List.find?_eq_none] at h ⊢
      intro x hx
      exact h x (List.mem_reverse.mp hx)
    constructor
    · unfold extractSummaryApp
      rw [h']
      rfl
    · unfold extractSummaryOpen
      rw [h]
      rfl
  · obtain ⟨f, rfl⟩ : ∃ f, fuel = f + 1 := ⟨fuel - 1, by omega⟩
    rw [pollLoop]
    rw [if_neg (by omega)]
    rw [if_pos h2]

/-- C7 witness: the fallback and the completed path at a message list
with no assistant message. -/
theorem C7_witness :
    extractSummaryApp msgsNoAssistant = "No summary generated." ∧
    pollLoop envCompleted 90 1 0 =
      some (.completed (extractSummaryApp envCompleted.messages), 1) :=
  ⟨(C7_amended.2.1 msgsNoAssistant (by decide)).1,
   C7_amended.2.2 envCompleted (by decide) rfl 1 (by decide)⟩

/-- C8, counterexample: the fetch succeeded with one article, the remote
run failed, and main displays only the failure message: the errorOnly
display carries no articles, because the article expander of src/app.py
sits inside the branch taken only when a summary exists. -/
theorem C8_counterexample :
    get_news envRunFail.fetch 15 ≠ .ok [] ∧
    (runMain true "ai" envRunFail).display = .errorOnly := by decide

/-- C8 (amended): when the fetch succeeded with a non-empty list and
summarization fails or times out (the loop exits with a None return
value), main displays only the error message; the fetched articles are
not presented, since they are displayed only together with a summary. -/
theorem C8_amended (topic : String) (env : MainEnv) (arts : List String)
    (o : SumOutcome) (k : Nat)
    (ht : topic ≠ "") (hf : get_news env.fetch 15 = .ok arts) (hne : arts ≠ [])
    (ha : env.assistantOk = true) (hth : env.threadOk = true)
    (hp : pollLoop env.poll 90 env.fuel 0 = some (o, k))
    (hv : returnValue o = none) :
    (runMain true topic env).display = .errorOnly := by
  have hrm : runMain true topic env =
      ⟨.fetchNews topic :: (afterFetch topic env).calls,
       (afterFetch topic env).display⟩ := by
    unfold runMain
    rw [if_pos ⟨rfl, ht⟩]
  have hdisp : (afterFetch topic env).display =
      mainDisplay (summarize_news_m ⟨some "thread-id", some "assistant-id"⟩
        env.poll 90 env.fuel).1 arts := by
    unfold afterFetch
    rw [hf]
    simp [hne, ha, hth]
  rw [hrm]
  show (afterFetch topic env).display = _
  rw [hdisp]
  unfold summarize_news_m
  simp [hp, hv, mainDisplay]

/-- C8 witness: the amended statement applied to envRunFail. -/
theorem C8_witness : (runMain true "ai" envRunFail).display = .errorOnly :=
  C8_amended "ai" envRunFail [formatArticle artNew] (.runFailed "failed") 1
    (by decide) (by decide) (by decide) rfl rfl (by decide) rfl

/-- C9, counterexample: a whitespace-only topic is truthy in Python, so
the guard of src/app.py line 174 passes and the provider fetch is
performed: network activity happens for the topic " ". -/
theorem C9_counterexample :
    ApiCall.fetchNews " " ∈ (runMain true " " envIdle).calls ∧
    (runMain true " " envIdle).calls ≠ [] := by decide

/-- C9 (amended): only the exactly-empty topic is rejected, and silently
(no calls, nothing displayed, no explicit input-error message); a
whitespace-only topic passes the truthiness guard and the provider fetch
is performed for it in every environment. -/
theorem C9_amended (env : MainEnv) (b : Bool) :
    runMain b "" env = ⟨[], .nothing⟩ ∧
    ApiCall.fetchNews " " ∈ (runMain true " " env).calls := by
  constructor
  · unfold runMain
    rw [if_neg (by simp)]
  · unfold runMain
    rw [if_pos ⟨rfl, by decide⟩]
    exact List.mem_cons_self _ _

/-- C10 (confirmed): calling add_news_to_thread without a thread, or
summarize_news without a thread or without an assistant, raises
ValueError before any remote call: the guard precedes the try block, so
the exception is thrown (not returned as a result) and the list of
remote calls made is empty. -/
theorem C10_guards :
    (∀ st : SummarizerState, ∀ mo : Bool, ∀ arts : List String, ∀ topic : String,
      st.thread = none →
      add_news_to_thread_m st mo arts topic =
        (.error (.valueError "Thread not initialized"), [])) ∧
    (∀ st : SummarizerState, ∀ env : PollEnv, ∀ t fuel : Nat,
      st.thread = none ∨ st.assistant = none →
      summarize_news_m st env t fuel =
        (.error (.valueError "Thread or Assistant not initialized"), [])) := by
  constructor
  · intro st mo arts topic h
    rcases st with ⟨th, asst⟩
    cases th with
    | none => rfl
    | some v => simp at h
  · intro st env t fuel h
    rcases st with ⟨th, asst⟩
    cases th with
    | none => rfl
    | some v =>
      cases asst with
      | none => rfl
      | some w => rcases h with h | h <;> simp at h

/-- C10 witness: both guards applied at concrete uninitialized states. -/
theorem C10_witness :
    add_news_to_thread_m ⟨none, some "a-id"⟩ true [] "topic" =
      (.error (.valueError "Thread not initialized"), []) ∧
    summarize_news_m ⟨some "t-id", none⟩ envFailed 90 3 =
      (.error (.valueError "Thread or Assistant not initialized"), []) :=
  ⟨C10_guards.1 ⟨none, some "a-id"⟩ true [] "topic" rfl,
   C10_guards.2 ⟨some "t-id", none⟩ envFailed 90 3 (Or.inr rfl)⟩

end AINews
